import Mathlib

/-!
Verification of the chat-turn orchestrator of the ChatGPT-Admin service
(`src/service/src/index.ts`).  The definitions below are a shallow embedding
of the data model and of the request handlers that the claims are about:
the `/chat-process` streaming handler (lines 379-487), the `/chat-abort`
handler (lines 489-504), the `/chat-response-history` handler (lines
233-291) and the per-turn projection of the `/chat-history` handler
(lines 176-223).  Stateful handler code is embedded as pure functions from
an explicit environment (the values the surrounding storage operations
would return) to the list of messages written to the client connection and
the ordered list of store side effects performed.
-/

namespace ChatAdmin

/-- JS truthiness of an optional string, as computed by `isNotEmptyString`
in `utils/is` (a string value of positive length): used by the handler for
the room prompt override (line 387) and, as plain truthiness, for
`message.options.messageId` (line 457). -/
def isNotEmptyString : Option String → Bool
  | some s => !s.isEmpty
  | none => false

/-- JS truthiness of an optional number (`c.options.completion_tokens` on
line 192): present and nonzero. -/
def natTruthy : Option Nat → Bool
  | some n => n != 0
  | none => false

/-- JS truthiness of an optional boolean (`c.options.estimated` on line 197). -/
def boolTruthy : Option Bool → Bool
  | some b => b
  | none => false

/-- The `x || null` normalisation applied to token counters in the history
handlers (lines 194-196): a falsy value (absent or zero) becomes null. -/
def orNullNat (o : Option Nat) : Option Nat :=
  if natTruthy o then o else none

/-- The `x || null` normalisation applied to the estimated flag (line 197). -/
def orNullBool (o : Option Bool) : Option Bool :=
  if boolTruthy o then o else none

/-- The `Status` enum of `storage/model` as used by `index.ts`:
deletion-state tags of a turn and account states. -/
inductive Status where
  | Normal
  | Deleted
  | InversionDeleted
  | ResponseDeleted
  | PreVerify
  | AdminVerify
deriving Repr, DecidableEq

/-- The `UserRole` enum of `storage/model` (`UserRole.Admin` is tested on
line 397). -/
inductive UserRole where
  | Admin
  | User
  | Guest
deriving Repr, DecidableEq, BEq

/-- The per-turn `options` object of a stored chat row: caller-supplied
context ids plus the token counters merged in on update (read on lines
192-219 and 252-281). -/
structure ChatOptions where
  parentMessageId : Option String := none
  messageId : Option String := none
  conversationId : Option String := none
  prompt_tokens : Option Nat := none
  completion_tokens : Option Nat := none
  total_tokens : Option Nat := none
  estimated : Option Bool := none
deriving Repr, DecidableEq

/-- The `UsageResponse` carried by a final backend result
(`result.data.detail?.usage`). -/
structure UsageResponse where
  prompt_tokens : Nat
  completion_tokens : Nat
  total_tokens : Nat
  estimated : Bool := false
deriving Repr, DecidableEq

/-- One entry of the regeneration branch list (`previousResponse`): the
retained earlier response body and its options (pushed on lines 458-459). -/
structure PreviousResponse where
  response : String
  options : ChatOptions
deriving Repr, DecidableEq

/-- A stored chat turn row (`ChatInfo` of `storage/model`), with the fields
`index.ts` reads and writes. -/
structure ChatInfo where
  _id : String
  roomId : Nat
  uuid : Nat
  dateTime : Nat := 0
  prompt : String
  response : String := ""
  options : ChatOptions := {}
  status : Status := Status.Normal
  previousResponse : Option (List PreviousResponse) := none
deriving Repr, DecidableEq

/-- One backend event or final result body as seen by the handler: text,
backend message id, backend conversation id, finish reason and (for a final
result) the usage detail. -/
structure ChunkData where
  text : String
  id : Option String := none
  conversationId : Option String := none
  finish : Option String := none
  usage : Option UsageResponse := none
deriving Repr, DecidableEq

/-- How the awaited `chatReplyProcess` call terminates at its call site
(line 407): it returns a Success result with data, returns a result whose
`status` is not Success carrying a message (handled on lines 447-449), or
throws (handled by the catch on line 441, leaving `result` undefined). -/
inductive ReplyOutcome where
  | success (d : ChunkData)
  | failResult (message : String)
  | thrown (message : Option String)
deriving Repr, DecidableEq

/-- A message written to the client connection by `/chat-process`: a
streamed chunk per backend event (line 427), the final write of
`result.data` (line 439, with absent data when the result was not a
Success), the catch-path error chunk (line 442), or the sensitive-words
failure body sent on line 398. -/
inductive OutMsg where
  | chunk (d : ChunkData)
  | final (d : Option ChunkData)
  | errorChunk (message : Option String)
  | failMsg (message : String)
deriving Repr, DecidableEq

/-- Every message except a streamed interim chunk closes the exchange. -/
def OutMsg.isTerminal : OutMsg → Bool
  | OutMsg.chunk _ => false
  | _ => true

/-- The failure body sent when the audit predicate matches (line 398). -/
def sensitiveWordsMsg : String := "含有敏感词 | Contains sensitive words"

/-- The argument bundle of one `updateChat` store call (lines 460-472,
494-498): addressed row, new response text, backend ids, usage, and the
branch list when one is supplied. -/
structure UpdatePayload where
  chatId : String
  text : String
  messageId : Option String
  conversationId : Option String
  usage : Option UsageResponse
  previousResponse : Option (List PreviousResponse)
deriving Repr, DecidableEq

/-- One observable action of the `/chat-process` handler, in program order:
the room-lookup error log (line 386), the content-audit call (line 397),
the turn fetch or insert (lines 403-405), credential selection (line 434),
the backend streaming call (line 407) and the finalisation store writes
(lines 460-481). -/
inductive Effect where
  | logRoomError
  | auditCheck
  | getChatE (roomId : Nat) (uuid : Nat)
  | insertChatE (uuid : Nat) (prompt : String) (roomId : Nat) (options : ChatOptions)
  | selectKeyE (chatModel : String)
  | streamCallE (prompt : String) (systemMessage : Option String) (chatModel : String)
  | updateChatE (u : UpdatePayload)
  | insertUsageE (userId : String) (roomId : Nat) (chatId : String)
      (messageId : Option String) (usage : UsageResponse)
deriving Repr, DecidableEq

/-- Recognises a usage-row insertion among the effects. -/
def isUsageInsert : Effect → Bool
  | Effect.insertUsageE _ _ _ _ _ => true
  | _ => false

/-- A chat room row as read by `getChatRoom` (prompt override on lines
387-388). -/
structure ChatRoom where
  roomId : Nat
  userId : String
  title : String := ""
  prompt : Option String := none
  usingContext : Bool := true
deriving Repr, DecidableEq

/-- The audit section of the cached deployment config (line 396). -/
structure AuditConfig where
  enabled : Bool
  customizeEnabled : Bool
deriving Repr, DecidableEq

/-- The slice of the cached config the handler reads. -/
structure Config where
  auditConfig : AuditConfig
deriving Repr, DecidableEq

/-- The per-user config carrying the selected chat model (line 433). -/
structure UserConfig where
  chatModel : String
deriving Repr, DecidableEq

/-- The user row as read by `getUserById` (roles tested on line 397). -/
structure UserRecord where
  roles : List UserRole
  config : UserConfig
deriving Repr, DecidableEq

/-- The `/chat-process` request body (`RequestProps`, destructured on line
382). -/
structure RequestProps where
  roomId : Nat
  uuid : Nat
  regenerate : Bool
  prompt : String
  options : ChatOptions := {}
  systemMessage : Option String := none
  temperature : Option Rat := none
  top_p : Option Rat := none
deriving Repr, DecidableEq

/-- The values the storage and backend collaborators return during one
`/chat-process` request: the room lookup result, cached config, user row,
the audit predicate verdict for the prompt, the existing turn for a
regenerate, the id `insertChat` would assign, the backend partial events
delivered to the `process` callback, and how the backend call terminates. -/
structure ProcEnv where
  room : Option ChatRoom
  config : Config
  user : UserRecord
  sensitive : Bool
  existingChat : Option ChatInfo := none
  newChatId : String := "new"
  events : List ChunkData := []
  outcome : ReplyOutcome
deriving Repr, DecidableEq

/-- The row `insertChat` creates for a fresh turn (line 405): prompt and
caller options stored, response empty, no branch list. -/
def insertChatRow (id : String) (uuid : Nat) (prompt : String) (roomId : Nat)
    (options : ChatOptions) : ChatInfo :=
  { _id := id, roomId := roomId, uuid := uuid, prompt := prompt,
    response := "", options := options, status := Status.Normal,
    previousResponse := none }

/-- The result fixup at the top of the finally block (lines 447-451): a
missing or non-Success result is replaced by `{ data := lastResponse }`,
where for a non-Success result `lastResponse` is first overwritten with
`{ text := result.message }`. -/
def resultData (outcome : ReplyOutcome) (lastResponse : Option ChunkData) :
    Option ChunkData :=
  match outcome with
  | ReplyOutcome.success d => some d
  | ReplyOutcome.failResult m => some { text := m }
  | ReplyOutcome.thrown _ => lastResponse

/-- The update payload of a regenerate finalisation (lines 458-465): the
pre-regeneration response and options are pushed onto the stored branch
list and the whole list is passed to `updateChat`. -/
def regenPayload (m : ChatInfo) (d : ChunkData) : UpdatePayload :=
  { chatId := m._id, text := d.text, messageId := d.id,
    conversationId := d.conversationId, usage := d.usage,
    previousResponse :=
      some (m.previousResponse.getD [] ++
        [{ response := m.response, options := m.options }]) }

/-- The update payload of a plain finalisation (lines 468-472): no branch
argument is passed, so the stored branch list is untouched. -/
def plainPayload (m : ChatInfo) (d : ChunkData) : UpdatePayload :=
  { chatId := m._id, text := d.text, messageId := d.id,
    conversationId := d.conversationId, usage := d.usage,
    previousResponse := none }

/-- The finally block of `/chat-process` (lines 444-486) as the list of
store effects it performs: nothing when the fixed-up result has no data
(line 453) or when the fetched turn is absent (accessing `message.options`
throws into the inner catch); otherwise one `updateChat` — pushing a branch
entry first when this is a regenerate whose stored options carry a truthy
message id (lines 457-465) — followed by a usage insert iff the result data
carries a usage detail (lines 475-481). -/
def finalizeChatProcess (userId : String) (roomId : Nat) (regenerate : Bool)
    (message : Option ChatInfo) (outcome : ReplyOutcome)
    (lastResponse : Option ChunkData) : List Effect :=
  match resultData outcome lastResponse with
  | none => []
  | some d =>
    match message with
    | none => []
    | some m =>
      let upd : UpdatePayload :=
        if regenerate && isNotEmptyString m.options.messageId then
          regenPayload m d
        else
          plainPayload m d
      Effect.updateChatE upd ::
        (match d.usage with
         | some u => [Effect.insertUsageE userId roomId m._id d.id u]
         | none => [])

/-- Whether the fixed-up result of the finally block carries a usage
detail (the condition of line 475). -/
def finalUsagePresent (outcome : ReplyOutcome) (lastResponse : Option ChunkData) :
    Bool :=
  match resultData outcome lastResponse with
  | some d => d.usage.isSome
  | none => false

/-- The system message the handler resolves on lines 384-388: the room
prompt when the room exists and its prompt is a non-empty string, the
caller-supplied `systemMessage` otherwise (also when the room lookup
failed). -/
def resolvedSystemMessage (env : ProcEnv) (req : RequestProps) : Option String :=
  match env.room with
  | some room =>
      if isNotEmptyString room.prompt then room.prompt else req.systemMessage
  | none => req.systemMessage

/-- The audit gate of line 396: the audit policy or its customised variant
is enabled. -/
def auditGate (env : ProcEnv) : Bool :=
  env.config.auditConfig.enabled || env.config.auditConfig.customizeEnabled

/-- Whether the caller holds the Admin role (line 397). -/
def adminCaller (env : ProcEnv) : Bool :=
  env.user.roles.contains UserRole.Admin

/-- Whether the request is rejected by the audit (lines 396-400): gate
enabled, caller not Admin, and the audit predicate flags the prompt. -/
def auditTriggered (env : ProcEnv) : Bool :=
  auditGate env && !adminCaller env && env.sensitive

/-- The effects performed before the audit verdict: the room-lookup error
log (lines 385-386) and the audit predicate call, which runs whenever the
gate is enabled and the caller is not Admin (line 397). -/
def preEffects (env : ProcEnv) : List Effect :=
  (if env.room.isNone then [Effect.logRoomError] else []) ++
    (if auditGate env && !adminCaller env then [Effect.auditCheck] else [])

/-- The turn fetch or insert of lines 403-405 as an effect. -/
def fetchEffects (req : RequestProps) : List Effect :=
  if req.regenerate then [Effect.getChatE req.roomId req.uuid]
  else [Effect.insertChatE req.uuid req.prompt req.roomId req.options]

/-- The turn row the handler works with (lines 403-405): the stored turn
for a regenerate (absent when it does not exist), the freshly inserted row
otherwise. -/
def messageRow (env : ProcEnv) (req : RequestProps) : Option ChatInfo :=
  if req.regenerate then env.existingChat
  else some (insertChatRow env.newChatId req.uuid req.prompt req.roomId req.options)

/-- The terminal message of the try or catch path: the final write of
`result.data` (line 439; a non-Success result has no data, so the write
carries nothing), or the catch-path error chunk (line 442). -/
def terminalMsg (outcome : ReplyOutcome) : OutMsg :=
  match outcome with
  | ReplyOutcome.success d => OutMsg.final (some d)
  | ReplyOutcome.failResult _ => OutMsg.final none
  | ReplyOutcome.thrown em => OutMsg.errorChunk em

/-- The `/chat-process` handler (lines 379-487): resolves the system
prompt (room override, lines 384-388, logging when the room lookup fails,
lines 385-386), runs the audit gate (lines 396-401) and returns the
sensitive-words failure with no further effect on a match; otherwise
fetches (regenerate) or inserts the turn row, selects a credential during
argument evaluation of the backend call, streams one chunk per backend
event, writes the terminal message of the try or catch path, and performs
the finally-block store writes.  A regenerate whose turn is absent throws
while building the call arguments (after credential selection) and reaches
the catch with no events streamed. -/
def chatProcess (env : ProcEnv) (userId : String) (req : RequestProps) :
    List OutMsg × List Effect :=
  if auditTriggered env then
    ([OutMsg.failMsg sensitiveWordsMsg], preEffects env)
  else
    match messageRow env req with
    | none =>
        ([OutMsg.errorChunk none],
         preEffects env ++ fetchEffects req ++
           [Effect.selectKeyE env.user.config.chatModel] ++
           finalizeChatProcess userId req.roomId req.regenerate none
             (ReplyOutcome.thrown none) none)
    | some m =>
        (env.events.map OutMsg.chunk ++ [terminalMsg env.outcome],
         preEffects env ++ fetchEffects req ++
           [Effect.selectKeyE env.user.config.chatModel] ++
           [Effect.streamCallE req.prompt (resolvedSystemMessage env req)
             env.user.config.chatModel] ++
           finalizeChatProcess userId req.roomId req.regenerate (some m)
             env.outcome env.events.getLast?)

/-- Modelled from the spec: the store write behind `updateChat`
(`storage/mongo` is not under `src/`; spec section 6 gives
`updateTurn(turnId, text, backendMessageId, backendConversationId, usage,
branches?)`): sets the response text and backend ids, merges the token
counters into the options only when a usage value is supplied, and replaces
the branch list only when a branches argument is supplied (spec section 3:
the list is never truncated otherwise). -/
def applySet (c : ChatInfo) (text : String) (msgId convId : Option String)
    (usage : Option UsageResponse) (branches : Option (List PreviousResponse)) :
    ChatInfo :=
  let o := c.options
  let o := { o with messageId := msgId, conversationId := convId }
  let o :=
    match usage with
    | some u =>
        { o with prompt_tokens := some u.prompt_tokens,
                 completion_tokens := some u.completion_tokens,
                 total_tokens := some u.total_tokens,
                 estimated := some u.estimated }
    | none => o
  let pr : Option (List PreviousResponse) :=
    match branches with
    | some l => some l
    | none => c.previousResponse
  { c with response := text, options := o, previousResponse := pr }

/-- Applying one `/chat-process` update payload to the addressed row. -/
def applyUpdateChat (c : ChatInfo) (u : UpdatePayload) : ChatInfo :=
  applySet c u.text u.messageId u.conversationId u.usage u.previousResponse

/-- The cancellation registry: user identity to the in-flight turn id
(spec section 4.1; the registry lives in the `chatgpt` module, outside
`src/`). -/
abbrev Registry := List (String × String)

/-- The registry entry currently held for a user, if any. -/
def registryLookup (reg : Registry) (userId : String) : Option String :=
  (reg.find? (fun e => e.1 == userId)).map (fun e => e.2)

/-- Modelled from the spec: `abortChatProcess` of the `chatgpt` module (not
under `src/`); spec section 4.4: it signals cancellation for the identity
and returns the id of the turn that was cancelled, or no-ops returning
absent when none is in flight, the terminal turn leaving the registry. -/
def abortChatProcess (reg : Registry) (userId : String) :
    Option String × Registry :=
  match reg.find? (fun e => e.1 == userId) with
  | some e => (some e.2, reg.filter (fun x => !(x.1 == userId)))
  | none => (none, reg)

/-- Modelled from the spec: the store update addressed by a turn id
(`storage/mongo`, not under `src/`): the write applies to the row whose id
matches; an absent id addresses no row, so the write matches nothing. -/
def updateChatStore (chats : List ChatInfo) (chatId : Option String)
    (text : String) (msgId convId : Option String)
    (usage : Option UsageResponse) : List ChatInfo :=
  match chatId with
  | none => chats
  | some cid =>
      chats.map fun c =>
        if c._id = cid then applySet c text msgId convId usage none else c

/-- The outcome of one `/chat-abort` call: registry and chat store after
the call, and whether a Success body was sent. -/
structure AbortOut where
  registry : Registry
  chats : List ChatInfo
  ok : Bool
deriving Repr, DecidableEq

/-- The `/chat-abort` handler (lines 489-504): signal cancellation for the
caller identity, then write the caller-supplied closing text, message id
and conversation id into the cancelled turn with null usage, and answer
Success. -/
def chatAbort (reg : Registry) (chats : List ChatInfo)
    (userId text messageId conversationId : String) : AbortOut :=
  let r := abortChatProcess reg userId
  { registry := r.2,
    chats := updateChatStore chats r.1 text (some messageId)
      (some conversationId) none,
    ok := true }

/-- The usage object built by the history handlers (lines 192-199 and
252-259), with each counter normalised by `|| null`. -/
structure UsageBlock where
  completion_tokens : Option Nat
  prompt_tokens : Option Nat
  total_tokens : Option Nat
  estimated : Option Bool
deriving Repr, DecidableEq

/-- The conditional usage block of a response-side entry: present iff the
stored completion-token count is truthy (line 192 and line 252). -/
def usageOf (o : ChatOptions) : Option UsageBlock :=
  if natTruthy o.completion_tokens then
    some { completion_tokens := orNullNat o.completion_tokens,
           prompt_tokens := orNullNat o.prompt_tokens,
           total_tokens := orNullNat o.total_tokens,
           estimated := orNullBool o.estimated }
  else none

/-- One entry of a history response: the fields both history handlers
populate (prompt-side entries carry `inversion := true` and no usage or
response count). -/
structure HistoryItem where
  uuid : Nat
  text : String
  inversion : Bool
  responseCount : Option Nat := none
  usage : Option UsageBlock := none
  parentMessageId : Option String := none
  conversationId : Option String := none
  requestParentMessageId : Option String := none
  promptText : String := ""
deriving Repr, DecidableEq

/-- The prompt-side entry of a turn (lines 178-189). -/
def promptItem (c : ChatInfo) : HistoryItem :=
  { uuid := c.uuid, text := c.prompt, inversion := true, promptText := c.prompt }

/-- The response-side view of a turn for a given response body and options
(lines 200-221 for the primary response; lines 260-285 reuse the same shape
for a selected branch entry).  `responseCount` is the stored branch-list
length plus one (line 207). -/
def responseView (c : ChatInfo) (resp : PreviousResponse) : HistoryItem :=
  { uuid := c.uuid, text := resp.response, inversion := false,
    responseCount := some ((c.previousResponse.getD []).length + 1),
    usage := usageOf resp.options,
    parentMessageId := resp.options.messageId,
    conversationId := resp.options.conversationId,
    requestParentMessageId := resp.options.parentMessageId,
    promptText := c.prompt }

/-- The per-turn projection of the `/chat-history` handler (lines 176-223):
the prompt-side entry unless the turn status is InversionDeleted, then the
response-side entry unless the status is ResponseDeleted. -/
def chatHistoryEntries (c : ChatInfo) : List HistoryItem :=
  (if c.status = Status.InversionDeleted then [] else [promptItem c]) ++
  (if c.status = Status.ResponseDeleted then [] else
    [responseView c { response := c.response, options := c.options }])

/-- The result of a `/chat-response-history` query on a fetched turn. -/
inductive HistResult where
  | fail
  | ok (item : HistoryItem)
deriving Repr, DecidableEq

/-- The `/chat-response-history` handler on the fetched turn (lines
244-285): fails when the branch list is undefined or shorter than the
index; otherwise answers with the indexed branch entry, or with the primary
response when the index reaches the list length. -/
def chatResponseHistory (chat : ChatInfo) (index : Nat) : HistResult :=
  match chat.previousResponse with
  | none => HistResult.fail
  | some l =>
    if l.length < index then HistResult.fail
    else
      let resp : PreviousResponse :=
        if h : index < l.length then l.get ⟨index, h⟩
        else { response := chat.response, options := chat.options }
      HistResult.ok (responseView chat resp)

/-! Concrete fixtures used by counterexamples and witnesses. -/

/-- A stored turn whose options carry no backend message id (as a turn
created by `insertChat` and never successfully finalised), with an empty
branch list. -/
def exChatC1 : ChatInfo :=
  { _id := "c1", roomId := 1, uuid := 7, prompt := "p", response := "old",
    options := {}, previousResponse := some [] }

/-- The update payload the finally block emits for `exChatC1` under a
regenerate with a successful result `"new"`. -/
def exPayloadC1 : UpdatePayload :=
  { chatId := "c1", text := "new", messageId := none, conversationId := none,
    usage := none, previousResponse := none }

/-- A stored turn with a backend message id and one retained branch entry. -/
def exChatC1w : ChatInfo :=
  { _id := "w1", roomId := 2, uuid := 3, prompt := "q", response := "r0",
    options := { messageId := some "m0" },
    previousResponse := some [{ response := "rold", options := {} }] }

/-- The update payload the finally block emits for `exChatC1w` under a
regenerate with a successful result `"r1"`. -/
def exPayloadC1w : UpdatePayload :=
  { chatId := "w1", text := "r1", messageId := none, conversationId := none,
    usage := none,
    previousResponse :=
      some [{ response := "rold", options := {} },
            { response := "r0", options := { messageId := some "m0" } }] }

/-- A fresh turn used by the C4 counterexample. -/
def exChatC4 : ChatInfo :=
  { _id := "c4", roomId := 1, uuid := 9, prompt := "p4" }

/-- An environment with the audit policy enabled, a non-admin caller and a
prompt the audit predicate flags. -/
def envC2 : ProcEnv :=
  { room := none,
    config := { auditConfig := { enabled := true, customizeEnabled := false } },
    user := { roles := [UserRole.User], config := { chatModel := "gpt-3.5-turbo" } },
    sensitive := true,
    outcome := ReplyOutcome.thrown none }

/-- The request matching `envC2`. -/
def reqC2 : RequestProps :=
  { roomId := 5, uuid := 1, regenerate := false, prompt := "bad" }

/-- An environment whose room lookup fails while everything else succeeds:
audit disabled, one streamed event and a successful final result. -/
def envC3 : ProcEnv :=
  { room := none,
    config := { auditConfig := { enabled := false, customizeEnabled := false } },
    user := { roles := [UserRole.User], config := { chatModel := "g" } },
    sensitive := false,
    newChatId := "n3",
    events := [{ text := "2+2=4" }],
    outcome := ReplyOutcome.success
      { text := "2+2=4", id := some "i3",
        usage := some { prompt_tokens := 5, completion_tokens := 3, total_tokens := 8 } } }

/-- The request matching `envC3`. -/
def reqC3 : RequestProps :=
  { roomId := 5, uuid := 1, regenerate := false, prompt := "2+2?" }

/-- A registry with one in-flight turn for user `alice`. -/
def exRegC5 : Registry := [("alice", "t1")]

/-- The turn `alice` is streaming. -/
def exChatT1 : ChatInfo :=
  { _id := "t1", roomId := 1, uuid := 1, prompt := "p", response := "half",
    options := { completion_tokens := some 2 } }

/-- A store holding the turn `alice` is streaming. -/
def exChatsC5 : List ChatInfo := [exChatT1]

/-- An environment with an existing room carrying a non-empty prompt. -/
def envC8 : ProcEnv :=
  { room := some { roomId := 4, userId := "u8", prompt := some "room rules" },
    config := { auditConfig := { enabled := false, customizeEnabled := false } },
    user := { roles := [UserRole.User], config := { chatModel := "g" } },
    sensitive := false,
    outcome := ReplyOutcome.success { text := "ok" } }

/-- The request matching `envC8`, carrying its own system message. -/
def reqC8 : RequestProps :=
  { roomId := 4, uuid := 2, regenerate := false, prompt := "hi",
    systemMessage := some "caller message" }

/-- A turn with one retained branch entry, for the response-history
witness. -/
def exChatC9 : ChatInfo :=
  { _id := "c9", roomId := 3, uuid := 11, prompt := "p9", response := "cur",
    options := { messageId := some "m9", completion_tokens := some 4 },
    previousResponse := some [{ response := "old0", options := {} }] }

/-- A fresh turn row used by the usage-row witness. -/
def exChatC6 : ChatInfo :=
  { _id := "t6", roomId := 5, uuid := 2, prompt := "p6" }

/-- An active turn with a nonzero stored completion-token count, for the
chat-history witness. -/
def exChatC10 : ChatInfo :=
  { _id := "ca", roomId := 6, uuid := 12, prompt := "pa", response := "ra",
    options := { completion_tokens := some 3, total_tokens := some 7 },
    status := Status.Normal, previousResponse := none }

/-! Helper lemmas shared by the claim theorems. -/

/-- Every effect of the finally block is an `updateChat` or a usage
insertion. -/
lemma mem_finalize_shape (userId : String) (roomId : Nat) (regen : Bool)
    (message : Option ChatInfo) (outcome : ReplyOutcome)
    (lastResponse : Option ChunkData) (e : Effect)
    (he : e ∈ finalizeChatProcess userId roomId regen message outcome lastResponse) :
    (∃ u, e = Effect.updateChatE u) ∨
    (∃ a b c dd u, e = Effect.insertUsageE a b c dd u) := by
  unfold finalizeChatProcess at he
  cases hrd : resultData outcome lastResponse with
  | none => rw [hrd] at he; simp at he
  | some d =>
    rw [hrd] at he
    cases message with
    | none => simp at he
    | some m =>
      simp only [List.mem_cons] at he
      rcases he with he | he
      · exact Or.inl ⟨_, he⟩
      · cases hu : d.usage with
        | none => rw [hu] at he; simp at he
        | some u =>
          rw [hu] at he
          simp only [List.mem_singleton] at he
          exact Or.inr ⟨_, _, _, _, _, he⟩

/-- Every pre-audit effect is the room-lookup log or the audit call. -/
lemma mem_preEffects (env : ProcEnv) (e : Effect) (h : e ∈ preEffects env) :
    e = Effect.logRoomError ∨ e = Effect.auditCheck := by
  unfold preEffects at h
  rw [List.mem_append] at h
  rcases h with h | h
  · split at h
    · exact Or.inl (List.mem_singleton.mp h)
    · simp at h
  · split at h
    · exact Or.inr (List.mem_singleton.mp h)
    · simp at h

/-- Every fetch effect is a turn read or a turn insert. -/
lemma mem_fetchEffects (req : RequestProps) (e : Effect) (h : e ∈ fetchEffects req) :
    e = Effect.getChatE req.roomId req.uuid ∨
    e = Effect.insertChatE req.uuid req.prompt req.roomId req.options := by
  unfold fetchEffects at h
  split at h
  · exact Or.inl (List.mem_singleton.mp h)
  · exact Or.inr (List.mem_singleton.mp h)

/-- The first component of the abort signal is the registry lookup. -/
lemma abortChatProcess_fst (reg : Registry) (userId : String) :
    (abortChatProcess reg userId).1 = registryLookup reg userId := by
  unfold abortChatProcess registryLookup
  cases reg.find? (fun e => e.1 == userId) <;> simp

/-- The system message recorded in a backend streaming call is the one the
handler resolved on lines 384-388. -/
lemma streamCall_mem_system (env : ProcEnv) (userId : String)
    (req : RequestProps) (p : String) (sm : Option String) (cm : String)
    (h : Effect.streamCallE p sm cm ∈ (chatProcess env userId req).2) :
    sm = resolvedSystemMessage env req := by
  unfold chatProcess at h
  cases hA : auditTriggered env with
  | true =>
      rw [hA] at h
      simp only [if_true] at h
      rcases mem_preEffects env _ h with h | h <;> exact absurd h (by simp)
  | false =>
      rw [hA] at h
      simp only [Bool.false_eq_true, if_false] at h
      cases hM : messageRow env req with
      | none =>
          rw [hM] at h
          simp only [List.append_assoc, List.mem_append] at h
          rcases h with h | h | h | h
          · rcases mem_preEffects env _ h with h | h <;> exact absurd h (by simp)
          · rcases mem_fetchEffects req _ h with h | h <;> exact absurd h (by simp)
          · exact absurd (List.mem_singleton.mp h) (by simp)
          · rcases mem_finalize_shape _ _ _ _ _ _ _ h with ⟨u, hu⟩ | ⟨a, b, c2, d2, u, hu⟩
              <;> exact absurd hu (by simp)
      | some m =>
          rw [hM] at h
          simp only [List.append_assoc, List.mem_append] at h
          rcases h with h | h | h | h | h
          · rcases mem_preEffects env _ h with h | h <;> exact absurd h (by simp)
          · rcases mem_fetchEffects req _ h with h | h <;> exact absurd h (by simp)
          · exact absurd (List.mem_singleton.mp h) (by simp)
          · have := List.mem_singleton.mp h
            exact ((Effect.streamCallE.injEq _ _ _ _ _ _).mp this).2.1
          · rcases mem_finalize_shape _ _ _ _ _ _ _ h with ⟨u, hu⟩ | ⟨a, b, c2, d2, u, hu⟩
              <;> exact absurd hu (by simp)

/-! Claim theorems. -/

/-- C1 counterexample: a regenerate request on the existing turn
`exChatC1`, whose stored options carry no backend message id, completes
finalization (an `updateChat` is performed) yet appends no branch entry:
the update carries no branch list and the stored branch list keeps length
0 instead of growing to 1. -/
theorem c1_counterexample :
    finalizeChatProcess "u" 1 true (some exChatC1)
        (ReplyOutcome.success { text := "new" }) none
      = [Effect.updateChatE exPayloadC1] ∧
    exPayloadC1.previousResponse = none ∧
    ((applyUpdateChat exChatC1 exPayloadC1).previousResponse.getD []).length = 0 ∧
    (exChatC1.previousResponse.getD []).length = 0 := by
  refine ⟨rfl, rfl, rfl, rfl⟩

/-- C1 (amended): for every regenerate request on an existing turn whose
stored options carry a (truthy) backend message id, the finalization
update appends exactly one branch entry holding the pre-regeneration
response and options: the branch list grows by exactly one, every earlier
entry is unchanged at its index, and the appended entry is the last one. -/
theorem chat_regenerate_appends_branch (userId : String) (roomId : Nat)
    (m : ChatInfo) (outcome : ReplyOutcome) (lastResponse : Option ChunkData)
    (u : UpdatePayload)
    (hmsg : isNotEmptyString m.options.messageId = true)
    (hu : Effect.updateChatE u
      ∈ finalizeChatProcess userId roomId true (some m) outcome lastResponse) :
    u.previousResponse
      = some (m.previousResponse.getD [] ++
          [{ response := m.response, options := m.options }]) ∧
    ((applyUpdateChat m u).previousResponse.getD []).length
      = (m.previousResponse.getD []).length + 1 ∧
    (∀ i, i < (m.previousResponse.getD []).length →
      ((applyUpdateChat m u).previousResponse.getD [])[i]?
        = (m.previousResponse.getD [])[i]?) ∧
    ((applyUpdateChat m u).previousResponse.getD []).getLast?
      = some { response := m.response, options := m.options } := by
  unfold finalizeChatProcess at hu
  cases hrd : resultData outcome lastResponse with
  | none => rw [hrd] at hu; simp at hu
  | some d =>
    rw [hrd] at hu
    simp only [hmsg, Bool.and_true, Bool.true_and, if_true] at hu
    have hueq : u = regenPayload m d := by
      simp only [List.mem_cons] at hu
      rcases hu with hu | hu
      · exact (Effect.updateChatE.injEq _ _).mp hu
      · cases hd : d.usage with
        | none => rw [hd] at hu; simp at hu
        | some u2 => rw [hd] at hu; simp at hu
    subst hueq
    refine ⟨rfl, ?_, ?_, ?_⟩
    · simp [applyUpdateChat, applySet, regenPayload]
    · intro i hi
      simp only [applyUpdateChat, applySet, regenPayload]
      simp [List.getElem?_append, hi]
    · simp [applyUpdateChat, applySet, regenPayload]

/-- C1 witness: applying the amended theorem to the concrete regenerate of
`exChatC1w` with result `"r1"`: the stored branch list grows from length 1
to length 2 and the appended last entry is the pre-regeneration response
`"r0"` with its options. -/
theorem chat_regenerate_appends_branch_witness :
    ((applyUpdateChat exChatC1w exPayloadC1w).previousResponse.getD []).length
      = (exChatC1w.previousResponse.getD []).length + 1 ∧
    ((applyUpdateChat exChatC1w exPayloadC1w).previousResponse.getD []).getLast?
      = some { response := "r0", options := { messageId := some "m0" } } := by
  have h := chat_regenerate_appends_branch "u" 2 exChatC1w
    (ReplyOutcome.success { text := "r1" }) none exPayloadC1w
    (by decide) (by decide)
  exact ⟨h.2.1, h.2.2.2⟩

/-- C4 counterexample: the backend fails after streaming the partial
`"abc"`, reporting the failure as a result whose status is not Success
with message `"boom"`; finalization updates the turn row, but the
persisted response text is the failure message `"boom"`, not the last-seen
partial text `"abc"`. -/
theorem c4_counterexample :
    finalizeChatProcess "u" 1 false (some exChatC4)
        (ReplyOutcome.failResult "boom") (some { text := "abc", id := some "i1" })
      = [Effect.updateChatE
          { chatId := "c4", text := "boom", messageId := none,
            conversationId := none, usage := none, previousResponse := none }] ∧
    ("boom" : String) ≠ "abc" := by
  exact ⟨rfl, by decide⟩

/-- C4 (amended): when the backend call fails, finalization still updates
the turn row; the persisted response text is the text of the last-seen
partial event when the failure surfaces as a thrown exception, and the
failure message when the backend returns a non-Success result. -/
theorem chat_failure_finalize_updates_row (userId : String) (roomId : Nat)
    (regen : Bool) (m : ChatInfo) (em : Option String) (fm : String)
    (d : ChunkData) (lastResponse : Option ChunkData) :
    (∃ u rest,
      finalizeChatProcess userId roomId regen (some m)
          (ReplyOutcome.thrown em) (some d)
        = Effect.updateChatE u :: rest ∧ u.text = d.text ∧ u.messageId = d.id) ∧
    (∃ u rest,
      finalizeChatProcess userId roomId regen (some m)
          (ReplyOutcome.failResult fm) lastResponse
        = Effect.updateChatE u :: rest ∧ u.text = fm ∧ u.messageId = none) := by
  constructor
  · unfold finalizeChatProcess resultData
    dsimp only
    split
    · exact ⟨_, _, rfl, rfl, rfl⟩
    · exact ⟨_, _, rfl, rfl, rfl⟩
  · unfold finalizeChatProcess resultData
    dsimp only
    split
    · exact ⟨_, _, rfl, rfl, rfl⟩
    · exact ⟨_, _, rfl, rfl, rfl⟩

/-- The usage-insert effects of a finalisation: exactly one when a turn
row was in hand and the fixed-up result carries a usage detail, none
otherwise. -/
lemma filter_usage_finalize_length (uid : String) (rid : Nat) (regen : Bool)
    (msg : Option ChatInfo) (outcome : ReplyOutcome) (lastR : Option ChunkData) :
    ((finalizeChatProcess uid rid regen msg outcome lastR).filter isUsageInsert).length
      = if msg.isSome && finalUsagePresent outcome lastR then 1 else 0 := by
  unfold finalizeChatProcess finalUsagePresent
  cases hrd : resultData outcome lastR with
  | none => simp
  | some d =>
    cases msg with
    | none => simp
    | some m =>
      cases hd : d.usage with
      | none => simp [isUsageInsert, hd]
      | some u2 => simp [isUsageInsert, hd]

/-- The pre-audit effects contain no usage insert. -/
lemma filter_usage_preEffects (env : ProcEnv) :
    (preEffects env).filter isUsageInsert = [] := by
  unfold preEffects
  rw [List.filter_append]
  split <;> split <;> rfl

/-- The fetch effects contain no usage insert. -/
lemma filter_usage_fetchEffects (req : RequestProps) :
    (fetchEffects req).filter isUsageInsert = [] := by
  unfold fetchEffects
  split <;> rfl

/-- C2: for every chat-process request with the audit policy enabled, a
caller without the Admin role, and a prompt the audit predicate flags, the
handler answers only the sensitive-words failure, and the effect trace
holds nothing but the room-lookup log and the audit call itself: no turn
row is created or updated, no usage row is written, no credential is
selected and no streaming happens. -/
theorem chat_audit_blocks_before_effects (env : ProcEnv) (userId : String)
    (req : RequestProps)
    (hen : env.config.auditConfig.enabled = true)
    (hadmin : env.user.roles.contains UserRole.Admin = false)
    (hsens : env.sensitive = true) :
    (chatProcess env userId req).1 = [OutMsg.failMsg sensitiveWordsMsg] ∧
    (chatProcess env userId req).2 = preEffects env ∧
    ∀ e ∈ (chatProcess env userId req).2,
      e = Effect.logRoomError ∨ e = Effect.auditCheck := by
  have hA : auditTriggered env = true := by
    unfold auditTriggered auditGate adminCaller
    rw [hen, hadmin, hsens]
    rfl
  unfold chatProcess
  rw [hA, if_pos rfl]
  exact ⟨rfl, rfl, fun e he => mem_preEffects env e he⟩

/-- C2 witness: the concrete flagged request `reqC2` under `envC2` (audit
enabled, non-admin caller, flagged prompt) produces only the failure
message, and its effect trace is exactly the pre-audit effects. -/
theorem chat_audit_blocks_before_effects_witness :
    (chatProcess envC2 "u2" reqC2).1 = [OutMsg.failMsg sensitiveWordsMsg] ∧
    (chatProcess envC2 "u2" reqC2).2 = preEffects envC2 := by
  have h := chat_audit_blocks_before_effects envC2 "u2" reqC2 rfl rfl rfl
  exact ⟨h.1, h.2.1⟩

/-- C3 counterexample: the request `reqC3` under `envC3`, whose room
lookup fails, does not fail with an InvalidRoom error and is not free of
side effects: a turn row is inserted and the stream completes with the
normal final chunk. -/
theorem c3_counterexample :
    envC3.room = none ∧
    Effect.insertChatE 1 "2+2?" 5 {} ∈ (chatProcess envC3 "u3" reqC3).2 ∧
    ((chatProcess envC3 "u3" reqC3).1).getLast?
      = some (OutMsg.final (some
          { text := "2+2=4", id := some "i3",
            usage := some { prompt_tokens := 5, completion_tokens := 3,
                            total_tokens := 8 } })) := by
  refine ⟨rfl, by decide, rfl⟩

/-- C3 (amended): a chat-process request whose room is missing or not
owned by the caller does not fail: the handler logs the lookup failure and
continues, the backend call (when reached) uses the caller-supplied
systemMessage unchanged, and (for a non-regenerate request not blocked by
the audit) a turn row is still inserted. -/
theorem chat_missing_room_continues (env : ProcEnv) (userId : String)
    (req : RequestProps) (hroom : env.room = none) :
    Effect.logRoomError ∈ (chatProcess env userId req).2 ∧
    (∀ p sm cm, Effect.streamCallE p sm cm ∈ (chatProcess env userId req).2 →
      sm = req.systemMessage) ∧
    (req.regenerate = false → auditTriggered env = false →
      Effect.insertChatE req.uuid req.prompt req.roomId req.options
        ∈ (chatProcess env userId req).2) := by
  have hpre : Effect.logRoomError ∈ preEffects env := by
    unfold preEffects
    rw [hroom]
    simp
  refine ⟨?_, ?_, ?_⟩
  · unfold chatProcess
    split
    · exact hpre
    · split <;> simp [List.mem_append, hpre]
  · intro p sm cm hmem
    have h := streamCall_mem_system env userId req p sm cm hmem
    rw [h]
    unfold resolvedSystemMessage
    rw [hroom]
  · intro hre hA
    have hM : messageRow env req
        = some (insertChatRow env.newChatId req.uuid req.prompt req.roomId req.options) := by
      unfold messageRow
      rw [hre]
      simp
    have hF : Effect.insertChatE req.uuid req.prompt req.roomId req.options
        ∈ fetchEffects req := by
      unfold fetchEffects
      rw [hre]
      simp
    unfold chatProcess
    rw [hA, hM]
    simp [List.mem_append, hF]

/-- C3 witness: applying the amended theorem to the concrete environment
`envC3` with a missing room: the lookup failure is logged and the turn row
is still inserted. -/
theorem chat_missing_room_continues_witness :
    Effect.logRoomError ∈ (chatProcess envC3 "u3" reqC3).2 ∧
    Effect.insertChatE 1 "2+2?" 5 {} ∈ (chatProcess envC3 "u3" reqC3).2 := by
  have h := chat_missing_room_continues envC3 "u3" reqC3 rfl
  exact ⟨h.1, h.2.2 rfl rfl⟩

/-- C6: at most one usage row is inserted per chat-process attempt, and
for an attempt that has a turn row in hand the finalisation inserts
exactly one usage row iff the fixed-up result carries a usage detail
(absent usage inserts nothing); the inserted row links the caller, the
room, the turn row id, the upstream message id and the token counters of
the result. -/
theorem chat_usage_row_iff_usage_present (env : ProcEnv) (userId : String)
    (req : RequestProps) (uid : String) (rid : Nat) (regen : Bool)
    (m : ChatInfo) (outcome : ReplyOutcome) (lastR : Option ChunkData) :
    ((chatProcess env userId req).2.filter isUsageInsert).length ≤ 1 ∧
    ((finalizeChatProcess uid rid regen (some m) outcome lastR).filter isUsageInsert).length
      = (if finalUsagePresent outcome lastR then 1 else 0) ∧
    (∀ d u2, resultData outcome lastR = some d → d.usage = some u2 →
      Effect.insertUsageE uid rid m._id d.id u2
        ∈ finalizeChatProcess uid rid regen (some m) outcome lastR) := by
  refine ⟨?_, ?_, ?_⟩
  · have hfin : ∀ (a : String) (b : Nat) (g : Bool) (msg : Option ChatInfo)
        (oc : ReplyOutcome) (lr : Option ChunkData),
        ((finalizeChatProcess a b g msg oc lr).filter isUsageInsert).length ≤ 1 := by
      intro a b g msg oc lr
      rw [filter_usage_finalize_length]
      split <;> simp
    unfold chatProcess
    split
    · simp [filter_usage_preEffects]
    · split
      · simp only [List.filter_append, List.length_append,
          filter_usage_preEffects, filter_usage_fetchEffects]
        simpa [isUsageInsert] using hfin _ _ _ _ _ _
      · simp only [List.filter_append, List.length_append,
          filter_usage_preEffects, filter_usage_fetchEffects]
        simpa [isUsageInsert] using hfin _ _ _ _ _ _
  · rw [filter_usage_finalize_length]
    simp
  · intro d u2 hrd hd
    unfold finalizeChatProcess
    rw [hrd]
    simp [hd]

/-- C6 witness: a finalisation whose successful result carries the usage
detail 5/3/8 inserts the usage row linking user, room, turn and upstream
message id. -/
theorem chat_usage_row_iff_usage_present_witness :
    Effect.insertUsageE "u6" 5 "t6" (some "i6")
        { prompt_tokens := 5, completion_tokens := 3, total_tokens := 8 }
      ∈ finalizeChatProcess "u6" 5 false (some exChatC6)
          (ReplyOutcome.success
            { text := "t", id := some "i6",
              usage := some { prompt_tokens := 5, completion_tokens := 3,
                              total_tokens := 8 } }) none := by
  have h := chat_usage_row_iff_usage_present envC3 "x" reqC3 "u6" 5 false
    exChatC6
    (ReplyOutcome.success
      { text := "t", id := some "i6",
        usage := some { prompt_tokens := 5, completion_tokens := 3,
                        total_tokens := 8 } }) none
  exact h.2.2 _ _ rfl rfl

/-- C7: every chat-process request ends its output with a terminal
message — the normal final chunk or an error-shaped one (the audit failure
body, the catch-path error chunk, or the final write) — never a bare
interim chunk and never nothing: the connection is not closed without a
final message. -/
theorem chat_stream_always_terminal (env : ProcEnv) (userId : String)
    (req : RequestProps) :
    ∃ t, ((chatProcess env userId req).1).getLast? = some t ∧
      t.isTerminal = true := by
  unfold chatProcess
  split
  · exact ⟨_, rfl, rfl⟩
  · split
    · exact ⟨_, rfl, rfl⟩
    · refine ⟨terminalMsg env.outcome, List.getLast?_concat _, ?_⟩
      unfold terminalMsg
      cases env.outcome <;> rfl

/-- A registry lookup that answers absent means `find?` found no entry. -/
lemma registryLookup_none_find (reg : Registry) (userId : String)
    (h : registryLookup reg userId = none) :
    reg.find? (fun e => e.1 == userId) = none := by
  unfold registryLookup at h
  cases hf : reg.find? (fun e => e.1 == userId) with
  | none => rfl
  | some e => rw [hf] at h; simp at h

/-- The chats an abort call leaves behind are the store update addressed
by the registry lookup. -/
lemma chatAbort_chats_eq (reg : Registry) (chats : List ChatInfo)
    (userId text messageId conversationId : String) :
    (chatAbort reg chats userId text messageId conversationId).chats
      = updateChatStore chats (registryLookup reg userId) text
          (some messageId) (some conversationId) none := by
  unfold chatAbort
  dsimp only
  rw [abortChatProcess_fst]

/-- C5: the abort endpoint contract.  When a turn is in flight for the
caller (the registry holds a turn id), the call answers Success, every
other row is untouched, and the row of the cancelled turn is rewritten with the
caller-supplied closing text, message id and conversation id while the
null usage leaves the stored token counters and the branch list unchanged.
When no turn is in flight, the call — and a second call right after it —
answers Success, mutates no row and leaves the registry unchanged. -/
theorem chat_abort_contract (reg : Registry) (chats : List ChatInfo)
    (userId text messageId conversationId : String) :
    (∀ mid, registryLookup reg userId = some mid →
      ((∀ c ∈ chats, ¬ c._id = mid →
          c ∈ (chatAbort reg chats userId text messageId conversationId).chats) ∧
       (∀ c ∈ chats, c._id = mid →
          applySet c text (some messageId) (some conversationId) none none
            ∈ (chatAbort reg chats userId text messageId conversationId).chats) ∧
       (∀ c : ChatInfo,
          (applySet c text (some messageId) (some conversationId) none none).response = text ∧
          (applySet c text (some messageId) (some conversationId) none none).options.messageId = some messageId ∧
          (applySet c text (some messageId) (some conversationId) none none).options.conversationId = some conversationId ∧
          (applySet c text (some messageId) (some conversationId) none none).options.completion_tokens = c.options.completion_tokens ∧
          (applySet c text (some messageId) (some conversationId) none none).options.prompt_tokens = c.options.prompt_tokens ∧
          (applySet c text (some messageId) (some conversationId) none none).options.total_tokens = c.options.total_tokens ∧
          (applySet c text (some messageId) (some conversationId) none none).previousResponse = c.previousResponse) ∧
       (chatAbort reg chats userId text messageId conversationId).ok = true)) ∧
    (registryLookup reg userId = none →
      ((chatAbort reg chats userId text messageId conversationId).chats = chats ∧
       (chatAbort reg chats userId text messageId conversationId).registry = reg ∧
       (chatAbort reg chats userId text messageId conversationId).ok = true ∧
       (chatAbort (chatAbort reg chats userId text messageId conversationId).registry
           (chatAbort reg chats userId text messageId conversationId).chats
           userId text messageId conversationId).chats = chats ∧
       (chatAbort (chatAbort reg chats userId text messageId conversationId).registry
           (chatAbort reg chats userId text messageId conversationId).chats
           userId text messageId conversationId).ok = true)) := by
  constructor
  · intro mid hmid
    have hchats : (chatAbort reg chats userId text messageId conversationId).chats
        = chats.map (fun c =>
            if c._id = mid then
              applySet c text (some messageId) (some conversationId) none none
            else c) := by
      rw [chatAbort_chats_eq, hmid]
      rfl
    refine ⟨?_, ?_, ?_, rfl⟩
    · intro c hc hne
      rw [hchats]
      have hm := List.mem_map_of_mem (fun c =>
        if c._id = mid then
          applySet c text (some messageId) (some conversationId) none none
        else c) hc
      dsimp only at hm
      rwa [if_neg hne] at hm
    · intro c hc he
      rw [hchats]
      have hm := List.mem_map_of_mem (fun c =>
        if c._id = mid then
          applySet c text (some messageId) (some conversationId) none none
        else c) hc
      dsimp only at hm
      rwa [if_pos he] at hm
    · intro c
      exact ⟨rfl, rfl, rfl, rfl, rfl, rfl, rfl⟩
  · intro h
    have hf := registryLookup_none_find reg userId h
    have h1 : chatAbort reg chats userId text messageId conversationId
        = { registry := reg, chats := chats, ok := true } := by
      unfold chatAbort abortChatProcess updateChatStore
      rw [hf]
    rw [h1]
    exact ⟨rfl, rfl, rfl, by rw [h1], by rw [h1]⟩

/-- C5 witness: aborting for `alice` (one turn in flight) rewrites her
turn with the closing text and ids; aborting for `bob` (nothing in flight)
answers Success and leaves the store untouched. -/
theorem chat_abort_contract_witness :
    applySet exChatT1 "stopped" (some "m1") (some "c1") none none
      ∈ (chatAbort exRegC5 exChatsC5 "alice" "stopped" "m1" "c1").chats ∧
    (chatAbort exRegC5 exChatsC5 "bob" "stopped" "m1" "c1").chats = exChatsC5 ∧
    (chatAbort exRegC5 exChatsC5 "bob" "stopped" "m1" "c1").ok = true := by
  have h1 := chat_abort_contract exRegC5 exChatsC5 "alice" "stopped" "m1" "c1"
  have h2 := chat_abort_contract exRegC5 exChatsC5 "bob" "stopped" "m1" "c1"
  refine ⟨?_, ?_, ?_⟩
  · exact (h1.1 "t1" rfl).2.1 exChatT1 (by decide) rfl
  · exact (h2.2 rfl).1
  · exact (h2.2 rfl).2.2.1

/-- C8: the system prompt passed to the backend call is the stored room
prompt whenever the room exists with a non-empty prompt, overriding the
caller-supplied systemMessage; when the room prompt is absent or empty,
the caller-supplied systemMessage is used unchanged. -/
theorem chat_system_prompt_override (env : ProcEnv) (userId : String)
    (req : RequestProps) :
    (∀ room, env.room = some room → isNotEmptyString room.prompt = true →
      ∀ p sm cm, Effect.streamCallE p sm cm ∈ (chatProcess env userId req).2 →
        sm = room.prompt) ∧
    (∀ room, env.room = some room → isNotEmptyString room.prompt = false →
      ∀ p sm cm, Effect.streamCallE p sm cm ∈ (chatProcess env userId req).2 →
        sm = req.systemMessage) := by
  constructor
  · intro room hr hp p sm cm hmem
    have h := streamCall_mem_system env userId req p sm cm hmem
    rw [h]
    unfold resolvedSystemMessage
    rw [hr]
    simp [hp]
  · intro room hr hp p sm cm hmem
    have h := streamCall_mem_system env userId req p sm cm hmem
    rw [h]
    unfold resolvedSystemMessage
    rw [hr]
    simp [hp]

/-- C8 witness: under `envC8`, whose room stores the non-empty prompt
`"room rules"`, the backend call of the concrete request `reqC8` (which
carries its own `systemMessage`) uses the room prompt. -/
theorem chat_system_prompt_override_witness :
    Effect.streamCallE "hi" (resolvedSystemMessage envC8 reqC8) "g"
      ∈ (chatProcess envC8 "u8" reqC8).2 ∧
    resolvedSystemMessage envC8 reqC8 = some "room rules" := by
  have hmem : Effect.streamCallE "hi" (resolvedSystemMessage envC8 reqC8) "g"
      ∈ (chatProcess envC8 "u8" reqC8).2 := by decide
  have h := (chat_system_prompt_override envC8 "u8" reqC8).1
    { roomId := 4, userId := "u8", prompt := some "room rules" } rfl rfl
    "hi" (resolvedSystemMessage envC8 reqC8) "g" hmem
  exact ⟨hmem, h.trans rfl⟩

/-- C9: on an existing turn whose branch list is defined with length L,
the response-history query fails when the index exceeds L, answers the
current primary response (text, options, usage) when the index equals L,
and answers the index-th oldest retained branch entry when the index is
below L. -/
theorem chat_response_history_indexing (chat : ChatInfo)
    (l : List PreviousResponse) (i : Nat)
    (hprev : chat.previousResponse = some l) :
    (l.length < i → chatResponseHistory chat i = HistResult.fail) ∧
    (i = l.length →
      chatResponseHistory chat i
        = HistResult.ok (responseView chat
            { response := chat.response, options := chat.options })) ∧
    (∀ h : i < l.length,
      chatResponseHistory chat i
        = HistResult.ok (responseView chat (l.get ⟨i, h⟩))) := by
  unfold chatResponseHistory
  rw [hprev]
  dsimp only
  refine ⟨?_, ?_, ?_⟩
  · intro hlt
    rw [if_pos hlt]
  · intro he
    subst he
    rw [if_neg (lt_irrefl l.length), dif_neg (lt_irrefl l.length)]
  · intro h
    have hng : ¬ l.length < i := Nat.not_lt.mpr (Nat.le_of_lt h)
    rw [if_neg hng, dif_pos h]

/-- C9 witness: on `exChatC9` (branch list of length 1), index 2 fails,
index 1 answers the current primary response, and index 0 answers the
oldest retained branch entry. -/
theorem chat_response_history_indexing_witness :
    chatResponseHistory exChatC9 2 = HistResult.fail ∧
    chatResponseHistory exChatC9 1
      = HistResult.ok (responseView exChatC9
          { response := "cur",
            options := { messageId := some "m9", completion_tokens := some 4 } }) ∧
    chatResponseHistory exChatC9 0
      = HistResult.ok (responseView exChatC9 { response := "old0", options := {} }) := by
  have h2 := chat_response_history_indexing exChatC9
    [{ response := "old0", options := {} }] 2 rfl
  have h1 := chat_response_history_indexing exChatC9
    [{ response := "old0", options := {} }] 1 rfl
  have h0 := chat_response_history_indexing exChatC9
    [{ response := "old0", options := {} }] 0 rfl
  exact ⟨h2.1 (by decide), h1.2.1 rfl, h0.2.2 (by decide)⟩

/-- The usage block of a response view is present exactly when the stored
completion-token count is truthy. -/
lemma usageOf_isSome (o : ChatOptions) :
    (usageOf o).isSome = natTruthy o.completion_tokens := by
  unfold usageOf
  split
  · next h => simp [h]
  · next h =>
      simp only [Bool.not_eq_true] at h
      simp [h]

/-- C10: the chat-history listing of a turn holds its prompt-side entry
iff the turn status is not InversionDeleted and its response-side entry
iff the status is not ResponseDeleted; a response-side entry reports a
usage block iff the stored completion-token count is nonzero, reporting
usage as absent otherwise. -/
theorem chat_history_deletion_filter (c : ChatInfo) :
    ((chatHistoryEntries c).any (fun it => it.inversion) = true
        ↔ c.status ≠ Status.InversionDeleted) ∧
    ((chatHistoryEntries c).any (fun it => !it.inversion) = true
        ↔ c.status ≠ Status.ResponseDeleted) ∧
    (∀ it ∈ chatHistoryEntries c, it.inversion = false →
      (it.usage.isSome = true ↔ natTruthy c.options.completion_tokens = true)) := by
  by_cases h1 : c.status = Status.InversionDeleted <;>
    by_cases h2 : c.status = Status.ResponseDeleted
  · rw [h1] at h2
    simp at h2
  · refine ⟨?_, ?_, ?_⟩ <;>
      simp [chatHistoryEntries, h1, h2, promptItem, responseView, usageOf_isSome]
  · refine ⟨?_, ?_, ?_⟩ <;>
      simp [chatHistoryEntries, h1, h2, promptItem, responseView, usageOf_isSome]
  · refine ⟨?_, ?_, ?_⟩ <;>
      simp [chatHistoryEntries, h1, h2, promptItem, responseView, usageOf_isSome]

/-- C10 witness: the response-side entry of the active turn `exChatC10`
(stored completion-token count 3) reports a usage block. -/
theorem chat_history_deletion_filter_witness :
    (responseView exChatC10
      { response := "ra",
        options := { completion_tokens := some 3, total_tokens := some 7 } }).usage.isSome
      = true := by
  have h := (chat_history_deletion_filter exChatC10).2.2
    (responseView exChatC10
      { response := "ra",
        options := { completion_tokens := some 3, total_tokens := some 7 } })
    (by decide) rfl
  exact h.mpr (by decide)

end ChatAdmin
